import Mathlib

/-
  Verification development for the pptr.dev static-site build script
  (`build.js`).  The script is a sequential pipeline of six steps that
  populates an output directory from source assets.  We embed the pipeline
  shallowly: external tools (rollup, uglify-es, csso, puppeteer's
  serializer) are inputs to the pipeline, the output directory is an
  explicit record, and each step is translated from the source line by
  line.
-/

set_option maxHeartbeats 1000000

namespace PptrBuild

/-- JavaScript truthiness of a nullable string (`if (cnameText)` on
line 41 of build.js): `null` and the empty string are falsy. -/
def jsTruthy : Option String → Bool
  | none => false
  | some s => !(s == "")

/-- Result object of `UglifyJS.minify` (line 51): an optional error and
the minified code. -/
structure MinifyResult where
  error : Option String := none
  code : String := ""
deriving DecidableEq

/-- A DOM node of the source entry page, as far as step 4's in-page
script observes it: `<link>` elements carry a `rel` and an `href`
(already resolved to an absolute URL by the browser); everything else is
opaque. -/
inductive Node where
  | link (rel href : String)
  | elem (tag : String)
deriving DecidableEq

/-- Selector `link[rel=stylesheet]` (line 85). -/
def isStylesheetLink : Node → Bool
  | .link rel _ => rel == "stylesheet"
  | .elem _ => false

/-- The `href` property read by the filter on line 85. -/
def hrefOf : Node → String
  | .link _ href => href
  | .elem _ => ""

/-- Character-list comparison underlying `String.prototype.startsWith`:
the first list leads the second. -/
def charListLeads : List Char → List Char → Bool
  | [], _ => true
  | _ :: _, [] => false
  | a :: as, b :: bs => (a == b) && charListLeads as bs

/-- `startsWith` over strings, by character list. -/
def strStartsWith (pre s : String) : Bool := charListLeads pre.data s.data

/-- The filter `link.href.startsWith('file://')` on line 85. -/
def isSameOrigin (n : Node) : Bool := strStartsWith ("file://") (hrefOf n)

/-- A node collected into the `links` array on line 85: a stylesheet
link whose href is same-origin (`file://`). -/
def isMatchedLink (n : Node) : Bool := isStylesheetLink n && isSameOrigin n

/-- A stylesheet link whose reference is the generated stylesheet path. -/
def pointsToStyleCss (n : Node) : Bool :=
  isStylesheetLink n && (hrefOf n == "/style.css")

/-- The `page.evaluate` callback of step 4 (lines 83-88): collect the
same-origin stylesheet links, set the first one's href to `/style.css`,
remove the rest.  `links.shift()` on an empty array yields `undefined`,
so the subsequent `.href =` assignment throws: that failure is modelled
as `none`. -/
def rewriteNodes : List Node → Option (List Node)
  | [] => none
  | n :: rest =>
    if isMatchedLink n then
      some (Node.link ("stylesheet") ("/style.css") ::
        rest.filter (fun m => !(isMatchedLink m)))
    else
      (rewriteNodes rest).map (fun out => n :: out)

/-- The regular expression `/^\s*$/` on line 89: a line consisting only
of whitespace. -/
def isBlankLine (l : String) : Bool := l.all (fun c => c.isWhitespace)

/-- Line 89: split the serialized page on newlines, drop blank lines,
rejoin. -/
def stripBlankLines (s : String) : String :=
  String.intercalate ("\n") ((s.splitOn ("\n")).filter (fun l => !(isBlankLine l)))

/-- `generateVersion` (lines 173-178): semver from packaging metadata, a
`+`, and the short git revision. -/
def generateVersion (semver sha : String) : String := semver ++ "+" ++ sha

/-- Banner prepended to the generated script (line 58). -/
def scriptHeader : String := "/* THIS FILE IS GENERATED BY build.js */\n\n"

/-- The `versionScript` line (line 59) assigning the build version to
`window.__WEBSITE_VERSION__`. -/
def versionScript (v : String) : String :=
  "window.__WEBSITE_VERSION__ = \"" ++ v ++ "\";\n"

/-- Banner prepended to the generated stylesheet (line 72). -/
def styleHeader : String := "/* THIS FILE IS GENERATED BY build.js */\n\n"

/-- HTML comment banner prepended to the generated page (line 89). -/
def htmlBanner : String := "<!-- THIS FILE IS GENERATED BY build.js -->\n\n"

/-- The output directory `docs/`.  The script writes only to the fixed
paths below, so the directory is represented as a record; copied images
and favicons are lists of (relative path, content) pairs. -/
structure OutDir where
  cname : Option String := none
  indexJs : Option String := none
  styleCss : Option String := none
  indexHtml : Option String := none
  images : List (String × String) := []
  favicons : List (String × String) := []
  swJs : Option String := none
deriving DecidableEq

/-- The flat file listing of the output directory, as the `'**/*'` glob
of step 6 sees it. -/
def OutDir.files (d : OutDir) : List (String × String) :=
  (d.cname.toList.map (fun c => ("CNAME", c))) ++
  (d.indexJs.toList.map (fun c => ("index.js", c))) ++
  (d.styleCss.toList.map (fun c => ("style.css", c))) ++
  (d.indexHtml.toList.map (fun c => ("index.html", c))) ++
  (d.images.map (fun f => ("images/" ++ f.1, f.2))) ++
  (d.favicons.map (fun f => ("favicons/" ++ f.1, f.2))) ++
  (d.swJs.toList.map (fun c => ("sw.js", c)))

/-- Return value of `injectManifest` (line 103): the precache manifest
entries, their count, and their total byte size. -/
structure SwResult where
  entries : List String
  count : Nat
  size : Nat
deriving DecidableEq

/-- Modelled from the spec: the `workbox-build` `injectManifest`
contract (the library itself is not part of this repository).  Per the
spec it receives the output directory, an exclusion list and glob
patterns, and returns the injected manifest together with the count of
precached files and their total byte size; `'**/*'` matches every file,
and files named in the exclusion list are left out of the manifest. -/
def injectManifest (dirFiles : List (String × String)) (ignores : List String) : SwResult :=
  let matched := dirFiles.filter (fun f => !(ignores.contains f.1))
  { entries := matched.map (fun f => f.1),
    count := matched.length,
    size := (matched.map (fun f => f.2.length)).sum }

/-- Line 110: `Math.round(size / 1024 * 100) / 100`, the precache size
in kibibytes.  JS numbers are modelled as exact rationals; `Math.round`
(round half toward positive infinity) is Mathlib's `round`. -/
def kbSize (size : Nat) : ℚ := ((round ((size : ℚ) / 1024 * 100) : ℤ) : ℚ) / 100

/-- Line 116: `Math.round((Date.now() - startTime) / 100) / 10`, the
elapsed build time in seconds. -/
def buildSeconds (elapsedMs : Nat) : ℚ :=
  ((round ((elapsedMs : ℚ) / 100) : ℤ) : ℚ) / 10

/-- Stated from the spec's words, for comparison: a quantity rounded to
exactly two decimal places. -/
def roundToTwoDecimals (x : ℚ) : ℚ := ((round (x * 100) : ℤ) : ℚ) / 100

/-- Stated from the spec's words, for comparison: a quantity rounded to
exactly one decimal place. -/
def roundToOneDecimal (x : ℚ) : ℚ := ((round (x * 10) : ℤ) : ℚ) / 10

/-- Everything the pipeline consumes from the environment and from the
opaque external tools: the prior CNAME content, packaging/git metadata,
the rollup bundle, the uglify / csso minifiers, the glob-ordered
stylesheet contents, the parsed source page and the browser's
serializer, the copied asset trees, and the service-worker template. -/
structure BuildInputs where
  cnameBefore : Option String := none
  semver : String := "1.0.0"
  gitSha : String := "abc1234"
  bundledCode : String := "bundled-code"
  minify : String → MinifyResult := fun c => { error := none, code := c }
  cssoMinify : String → Bool → String := fun s _ => s
  uiStyles : List String := []
  pptrStyles : List String := []
  thirdPartyStyles : List String := []
  sourcePage : List Node := [Node.link ("stylesheet") ("file://index.css")]
  serializePage : List Node → String := fun _ => "<html></html>"
  imagesFiles : List (String × String) := []
  faviconsFiles : List (String × String) := []
  swTemplate : String := "sw-template"

/-- Step 1 (lines 34-43): read the CNAME if present, remove the output
directory, recreate it empty, and rewrite the CNAME when its content is
truthy. -/
def cleanupStep (cnameBefore : Option String) : OutDir :=
  let cnameText := cnameBefore
  if jsTruthy cnameText then { cname := cnameText } else {}

/-- The observable final state of one run of the build process. -/
structure BuildResult where
  dir : OutDir
  exitCode : Nat
  crashed : Bool
  browserLaunched : Bool
  browserClosed : Bool
  sw : Option SwResult
  reportedKb : Option ℚ

/-- The pipeline (lines 30-118).  A minification error triggers
`process.exit(1)` before anything of step 2 is written; a failure of the
in-page evaluation in step 4 is an unhandled rejection that terminates
the process (exit code 1) with `browser.close()` on line 90 never
executed. -/
def build (i : BuildInputs) : BuildResult :=
  let buildVersion := generateVersion i.semver i.gitSha
  let d1 := cleanupStep i.cnameBefore
  let result := i.minify i.bundledCode
  match result.error with
  | some _ =>
      { dir := d1, exitCode := 1, crashed := false, browserLaunched := false,
        browserClosed := false, sw := none, reportedKb := none }
  | none =>
      let d2 := { d1 with
        indexJs := some (scriptHeader ++ versionScript buildVersion ++ result.code) }
      let d3 := { d2 with
        styleCss := some (styleHeader ++
          i.cssoMinify (String.intercalate ("\n")
            (i.uiStyles ++ i.pptrStyles ++ i.thirdPartyStyles)) false) }
      match rewriteNodes i.sourcePage with
      | none =>
          { dir := d3, exitCode := 1, crashed := true, browserLaunched := true,
            browserClosed := false, sw := none, reportedKb := none }
      | some outNodes =>
          let d4 := { d3 with
            indexHtml := some (htmlBanner ++ stripBlankLines (i.serializePage outNodes)) }
          let d5 := { d4 with images := i.imagesFiles, favicons := i.faviconsFiles }
          let sw := injectManifest (OutDir.files d5) (["CNAME"])
          let d6 := { d5 with swJs := some i.swTemplate }
          { dir := d6, exitCode := 0, crashed := false, browserLaunched := true,
            browserClosed := true, sw := some sw, reportedKb := some (kbSize sw.size) }

theorem cleanupStep_eq (c : Option String) :
    cleanupStep c = { cname := if jsTruthy c then c else none } := by
  by_cases h : jsTruthy c = true <;> simp [cleanupStep, h]

/-- C9: a marker file present with empty content is dropped by the Clean
Output step: the restore is guarded by JS truthiness, which the empty
string fails. -/
theorem c9_empty_marker_dropped : (cleanupStep (some "")).cname = none := by
  decide

/-- C10: the in-page rewriting of step 4 succeeds exactly when the
source page holds at least one same-origin stylesheet link; with no such
link, `links.shift()` yields no element and the step fails. -/
theorem c10_rewrite_needs_sameorigin_link (nodes : List Node) :
    (rewriteNodes nodes).isSome = nodes.any isMatchedLink := by
  induction nodes with
  | nil => rfl
  | cons n rest ih =>
    by_cases hm : isMatchedLink n = true
    · simp [rewriteNodes, hm]
    · simp only [Bool.not_eq_true] at hm
      cases hr : rewriteNodes rest with
      | none =>
        rw [hr] at ih
        simp [rewriteNodes, hm, hr, ← ih]
      | some out =>
        rw [hr] at ih
        simp [rewriteNodes, hm, hr, ← ih]

/-- C8: the logged precache size is the byte size divided by 1024
rounded to two decimal places, and the logged build time is the elapsed
milliseconds divided by 1000 rounded to one decimal place. -/
theorem c8_rounding (size elapsedMs : Nat) :
    kbSize size = roundToTwoDecimals ((size : ℚ) / 1024) ∧
    buildSeconds elapsedMs = roundToOneDecimal ((elapsedMs : ℚ) / 1000) := by
  constructor
  · rfl
  · unfold buildSeconds roundToOneDecimal
    rw [show ((elapsedMs : ℚ) / 1000) * 10 = (elapsedMs : ℚ) / 100 from by ring]

/-- C1 counterexample: a marker file that exists with empty content is
not preserved: a full successful build run starting from `CNAME`
containing the empty string ends with no `CNAME` in the output
directory, so its content after the build does not equal its content
before the build. -/
theorem c1_counterexample :
    (build ({ cnameBefore := some "" } : BuildInputs)).exitCode = 0 ∧
    (build ({ cnameBefore := some "" } : BuildInputs)).dir.cname = none := by
  constructor
  · rfl
  · rfl

/-- C1 (amended): for every build run in which the output directory
contains the marker file with NON-EMPTY content before the build, the
Clean Output step preserves it: whatever the rest of the pipeline does,
the marker file's content after the run equals its content before,
byte-for-byte. -/
theorem c1_nonempty_marker_preserved (i : BuildInputs) (s : String)
    (h1 : i.cnameBefore = some s) (h2 : s ≠ "") :
    (build i).dir.cname = some s := by
  have hd1 : cleanupStep i.cnameBefore = { cname := some s } := by
    rw [cleanupStep_eq, h1]
    simp [jsTruthy, h2]
  cases he : (i.minify i.bundledCode).error with
  | some e => simp [build, he, hd1]
  | none =>
    cases hr : rewriteNodes i.sourcePage with
    | none => simp [build, he, hr, hd1]
    | some outNodes => simp [build, he, hr, hd1]

/-- Witness for C1 at a concrete non-empty marker content. -/
theorem c1_witness :
    ({ cnameBefore := some "pptr.dev" } : BuildInputs).cnameBefore = some "pptr.dev" ∧
    "pptr.dev" ≠ "" ∧
    (build ({ cnameBefore := some "pptr.dev" } : BuildInputs)).dir.cname = some "pptr.dev" :=
  ⟨rfl, by decide, c1_nonempty_marker_preserved { cnameBefore := some "pptr.dev" } ("pptr.dev") rfl (by decide)⟩

/-- C2: if the minifier reports an error during step 2, the process
exits with status 1 (an explicit exit, not a crash) and the later steps
never run: no HTML entry file, no copied image or favicon assets, and no
service-worker script are in the output directory. -/
theorem c2_minify_error_aborts (i : BuildInputs)
    (h : (i.minify i.bundledCode).error.isSome = true) :
    (build i).exitCode = 1 ∧
    (build i).crashed = false ∧
    (build i).dir.indexHtml = none ∧
    (build i).dir.images = [] ∧
    (build i).dir.favicons = [] ∧
    (build i).dir.swJs = none := by
  obtain ⟨e, he⟩ := Option.isSome_iff_exists.mp h
  simp [build, he, cleanupStep_eq]

/-- Witness for C2 with a minifier that reports an error. -/
theorem c2_witness :
    (({ minify := fun c => { error := some "SyntaxError", code := c } } : BuildInputs).minify
      ({ minify := fun c => { error := some "SyntaxError", code := c } } : BuildInputs).bundledCode).error.isSome = true ∧
    ((build ({ minify := fun c => { error := some "SyntaxError", code := c } } : BuildInputs)).exitCode = 1 ∧
     (build ({ minify := fun c => { error := some "SyntaxError", code := c } } : BuildInputs)).crashed = false ∧
     (build ({ minify := fun c => { error := some "SyntaxError", code := c } } : BuildInputs)).dir.indexHtml = none ∧
     (build ({ minify := fun c => { error := some "SyntaxError", code := c } } : BuildInputs)).dir.images = [] ∧
     (build ({ minify := fun c => { error := some "SyntaxError", code := c } } : BuildInputs)).dir.favicons = [] ∧
     (build ({ minify := fun c => { error := some "SyntaxError", code := c } } : BuildInputs)).dir.swJs = none) :=
  ⟨rfl, c2_minify_error_aborts { minify := fun c => { error := some "SyntaxError", code := c } } rfl⟩

/-- C3: in every successful build the generated script file is the fixed
generated-file banner, then the line assigning the build version to
`window.__WEBSITE_VERSION__`, then the minified code; and the build
version is the packaging semver, a `+`, and the short git revision. -/
theorem c3_script_structure (i : BuildInputs)
    (h1 : (i.minify i.bundledCode).error = none)
    (h2 : (rewriteNodes i.sourcePage).isSome = true) :
    (build i).exitCode = 0 ∧
    (build i).dir.indexJs =
      some (scriptHeader ++ versionScript (generateVersion i.semver i.gitSha) ++
        (i.minify i.bundledCode).code) ∧
    generateVersion i.semver i.gitSha = i.semver ++ "+" ++ i.gitSha := by
  obtain ⟨outNodes, hr⟩ := Option.isSome_iff_exists.mp h2
  refine ⟨?_, ?_, rfl⟩ <;> simp [build, h1, hr]

/-- Witness for C3 at the default concrete inputs. -/
theorem c3_witness :
    (({} : BuildInputs).minify ({} : BuildInputs).bundledCode).error = none ∧
    (rewriteNodes ({} : BuildInputs).sourcePage).isSome = true ∧
    ((build ({} : BuildInputs)).exitCode = 0 ∧
     (build ({} : BuildInputs)).dir.indexJs =
       some (scriptHeader ++ versionScript (generateVersion ({} : BuildInputs).semver ({} : BuildInputs).gitSha) ++
         (({} : BuildInputs).minify ({} : BuildInputs).bundledCode).code) ∧
     generateVersion ({} : BuildInputs).semver ({} : BuildInputs).gitSha =
       ({} : BuildInputs).semver ++ "+" ++ ({} : BuildInputs).gitSha) :=
  ⟨rfl, by decide, c3_script_structure {} rfl (by decide)⟩

/-- C4: in every successful build the generated stylesheet file is the
generated-file banner followed by the minification, with restructuring
disabled, of the raw contents of the `ui`, then `pptr`, then
`third_party` stylesheet groups concatenated in that order and separated
by newlines. -/
theorem c4_style_structure (i : BuildInputs)
    (h1 : (i.minify i.bundledCode).error = none)
    (h2 : (rewriteNodes i.sourcePage).isSome = true) :
    (build i).exitCode = 0 ∧
    (build i).dir.styleCss =
      some (styleHeader ++
        i.cssoMinify (String.intercalate ("\n")
          (i.uiStyles ++ i.pptrStyles ++ i.thirdPartyStyles)) false) := by
  obtain ⟨outNodes, hr⟩ := Option.isSome_iff_exists.mp h2
  constructor <;> simp [build, h1, hr]

/-- Witness for C4 at concrete stylesheet groups. -/
theorem c4_witness :
    (({ uiStyles := ["ui-rule"], pptrStyles := ["pptr-rule"] } : BuildInputs).minify
      ({ uiStyles := ["ui-rule"], pptrStyles := ["pptr-rule"] } : BuildInputs).bundledCode).error = none ∧
    (rewriteNodes ({ uiStyles := ["ui-rule"], pptrStyles := ["pptr-rule"] } : BuildInputs).sourcePage).isSome = true ∧
    ((build ({ uiStyles := ["ui-rule"], pptrStyles := ["pptr-rule"] } : BuildInputs)).exitCode = 0 ∧
     (build ({ uiStyles := ["ui-rule"], pptrStyles := ["pptr-rule"] } : BuildInputs)).dir.styleCss =
       some (styleHeader ++
         ({ uiStyles := ["ui-rule"], pptrStyles := ["pptr-rule"] } : BuildInputs).cssoMinify
           (String.intercalate ("\n")
             (({ uiStyles := ["ui-rule"], pptrStyles := ["pptr-rule"] } : BuildInputs).uiStyles ++
              ({ uiStyles := ["ui-rule"], pptrStyles := ["pptr-rule"] } : BuildInputs).pptrStyles ++
              ({ uiStyles := ["ui-rule"], pptrStyles := ["pptr-rule"] } : BuildInputs).thirdPartyStyles)) false)) :=
  ⟨rfl, by decide, c4_style_structure { uiStyles := ["ui-rule"], pptrStyles := ["pptr-rule"] } rfl (by decide)⟩

/-- C6 counterexample: when the source page has no same-origin
stylesheet link, step 4's in-page evaluation fails after the browser was
launched, and `browser.close()` on line 90 never runs: the browser
session is not closed before the step fails. -/
theorem c6_counterexample :
    (build ({ sourcePage := [] } : BuildInputs)).browserLaunched = true ∧
    (build ({ sourcePage := [] } : BuildInputs)).crashed = true ∧
    (build ({ sourcePage := [] } : BuildInputs)).browserClosed = false := by
  refine ⟨?_, ?_, ?_⟩ <;> rfl

/-- C6 (amended): in every run that reaches step 4, the headless browser
is closed if and only if the in-page evaluation succeeds; on the failure
path the close call is skipped (the process then dies from the unhandled
rejection). -/
theorem c6_browser_closed_iff_rewrite_ok (i : BuildInputs)
    (h1 : (i.minify i.bundledCode).error = none) :
    (build i).browserClosed = (rewriteNodes i.sourcePage).isSome := by
  cases hr : rewriteNodes i.sourcePage with
  | none => simp [build, h1, hr]
  | some outNodes => simp [build, h1, hr]

/-- Witness for C6 at the default concrete inputs. -/
theorem c6_witness :
    (({} : BuildInputs).minify ({} : BuildInputs).bundledCode).error = none ∧
    (build ({} : BuildInputs)).browserClosed = (rewriteNodes ({} : BuildInputs).sourcePage).isSome :=
  ⟨rfl, c6_browser_closed_iff_rewrite_ok {} rfl⟩

theorem countP_filter_le (p q : Node → Bool) (l : List Node) :
    (l.filter q).countP p ≤ l.countP p := by
  induction l with
  | nil => simp
  | cons a l ih =>
    cases hq : q a <;> cases hp : p a <;>
      simp [List.filter_cons, hq, hp, List.countP_cons] <;> omega

theorem rewrite_no_matched (nodes out : List Node)
    (h : rewriteNodes nodes = some out) :
    ∀ n ∈ out, isMatchedLink n = false := by
  induction nodes generalizing out with
  | nil => simp [rewriteNodes] at h
  | cons m rest ih =>
    by_cases hm : isMatchedLink m = true
    · simp only [rewriteNodes, hm, if_true, Option.some_inj] at h
      subst h
      intro n hn
      rcases List.mem_cons.mp hn with h1 | h1
      · subst h1; decide
      · have := (List.mem_filter.mp h1).2
        simpa using this
    · simp only [rewriteNodes, hm, if_false, Bool.false_eq_true] at h
      rw [Option.map_eq_some'] at h
      obtain ⟨out', hr, rfl⟩ := h
      intro n hn
      rcases List.mem_cons.mp hn with h1 | h1
      · subst h1
        simpa using hm
      · exact ih out' hr n h1

theorem rewrite_unique_style (nodes out : List Node)
    (h : rewriteNodes nodes = some out)
    (h0 : nodes.countP pointsToStyleCss = 0) :
    out.countP pointsToStyleCss = 1 := by
  induction nodes generalizing out with
  | nil => simp [rewriteNodes] at h
  | cons m rest ih =>
    rw [List.countP_cons] at h0
    by_cases hp : pointsToStyleCss m = true
    · rw [if_pos hp] at h0; omega
    · rw [if_neg hp] at h0
      have hrest : rest.countP pointsToStyleCss = 0 := by omega
      by_cases hm : isMatchedLink m = true
      · simp only [rewriteNodes, hm, if_true, Option.some_inj] at h
        subst h
        rw [List.countP_cons,
          if_pos (show pointsToStyleCss (Node.link ("stylesheet") ("/style.css")) = true from by decide)]
        have hle := countP_filter_le pointsToStyleCss (fun m => !(isMatchedLink m)) rest
        omega
      · simp only [rewriteNodes, hm, if_false, Bool.false_eq_true] at h
        rw [Option.map_eq_some'] at h
        obtain ⟨out', hr, rfl⟩ := h
        rw [List.countP_cons, if_neg hp, ih out' hr hrest]

theorem rewrite_keeps_foreign (nodes out : List Node)
    (h : rewriteNodes nodes = some out) :
    ∀ n ∈ nodes, isStylesheetLink n = true → isSameOrigin n = false → n ∈ out := by
  induction nodes generalizing out with
  | nil => simp
  | cons m rest ih =>
    intro n hn hsl hso
    by_cases hm : isMatchedLink m = true
    · simp only [rewriteNodes, hm, if_true, Option.some_inj] at h
      subst h
      rcases List.mem_cons.mp hn with h1 | h1
      · subst h1
        simp [isMatchedLink, hso] at hm
      · refine List.mem_cons_of_mem _ (List.mem_filter.mpr ⟨h1, ?_⟩)
        simp [isMatchedLink, hso]
    · simp only [rewriteNodes, hm, if_false, Bool.false_eq_true] at h
      rw [Option.map_eq_some'] at h
      obtain ⟨out', hr, rfl⟩ := h
      rcases List.mem_cons.mp hn with h1 | h1
      · subst h1; exact List.mem_cons_self _ _
      · exact List.mem_cons_of_mem _ (ih out' hr n h1 hsl hso)

/-- C5 counterexample: on a source page holding one same-origin and one
cross-origin stylesheet link, step 4's rewriting keeps the cross-origin
link (the line-85 filter never selected it), so the output holds two
stylesheet link elements, not exactly one, and a stylesheet link of the
source page is still present. -/
theorem c5_counterexample :
    rewriteNodes
        [Node.link ("stylesheet") ("file://style.css"),
         Node.link ("stylesheet") ("https://cdn.example.com/fonts.css")] =
      some [Node.link ("stylesheet") ("/style.css"),
            Node.link ("stylesheet") ("https://cdn.example.com/fonts.css")] ∧
    List.countP isStylesheetLink
        [Node.link ("stylesheet") ("/style.css"),
         Node.link ("stylesheet") ("https://cdn.example.com/fonts.css")] ≠ 1 := by
  constructor
  · decide
  · decide

/-- C5 (amended): when step 4's rewriting succeeds on a page with no
pre-existing `/style.css` stylesheet link, the output page holds no
same-origin stylesheet link any more, holds exactly one stylesheet link
whose reference is `/style.css`, and every cross-origin stylesheet link
of the source page is still present (only same-origin ones are
removed). -/
theorem c5_one_style_link (nodes out : List Node)
    (h : rewriteNodes nodes = some out)
    (h0 : nodes.countP pointsToStyleCss = 0) :
    (∀ n ∈ out, isMatchedLink n = false) ∧
    out.countP pointsToStyleCss = 1 ∧
    (∀ n ∈ nodes, isStylesheetLink n = true → isSameOrigin n = false → n ∈ out) :=
  ⟨rewrite_no_matched nodes out h, rewrite_unique_style nodes out h h0,
   rewrite_keeps_foreign nodes out h⟩

/-- Witness for C5 on a concrete page with one same-origin stylesheet
link. -/
theorem c5_witness :
    rewriteNodes [Node.link ("stylesheet") ("file://app.css")] =
      some [Node.link ("stylesheet") ("/style.css")] ∧
    List.countP pointsToStyleCss [Node.link ("stylesheet") ("file://app.css")] = 0 ∧
    ((∀ n ∈ [Node.link ("stylesheet") ("/style.css")], isMatchedLink n = false) ∧
     List.countP pointsToStyleCss [Node.link ("stylesheet") ("/style.css")] = 1 ∧
     (∀ n ∈ [Node.link ("stylesheet") ("file://app.css")],
        isStylesheetLink n = true → isSameOrigin n = false →
        n ∈ [Node.link ("stylesheet") ("/style.css")])) :=
  ⟨by decide, by decide, c5_one_style_link _ _ (by decide) (by decide)⟩

/-- C7: for every output directory, the precache manifest produced by
step 6 lists exactly the static files other than the marker file `CNAME`
(so N entries for a directory with N non-marker files), the marker file
is never among the entries, and the reported count equals the number of
entries. -/
theorem c7_manifest_excludes_marker (d : OutDir) :
    (injectManifest (OutDir.files d) (["CNAME"])).entries.length =
      ((OutDir.files d).filter (fun f => !(f.1 == "CNAME"))).length ∧
    "CNAME" ∉ (injectManifest (OutDir.files d) (["CNAME"])).entries ∧
    (injectManifest (OutDir.files d) (["CNAME"])).count =
      (injectManifest (OutDir.files d) (["CNAME"])).entries.length := by
  have hpred : ∀ f : String × String,
      (!((["CNAME"] : List String).contains f.1)) = (!(f.1 == "CNAME")) := by
    intro f
    simp only [List.contains]
    cases hb : f.1 == "CNAME" <;> simp_all
  refine ⟨?_, ?_, ?_⟩
  · simp only [injectManifest, List.length_map]
    rw [List.filter_congr (fun f _ => hpred f)]
  · intro hmem
    simp only [injectManifest, List.mem_map] at hmem
    obtain ⟨f, hf, hfe⟩ := hmem
    have hkeep := (List.mem_filter.mp hf).2
    rw [hfe] at hkeep
    simp [List.contains] at hkeep
  · simp [injectManifest]

end PptrBuild
